import Mathlib

/-!
Verification development for the SBLPy repository (src/sblpy/revised.py).

The Python module is shallowly embedded below.  Python `int` values are
modelled as `Int`, dictionaries as association lists preserving insertion
order, falsy/truthy checks as explicit `Bool` functions, and code that can
raise as `Except` / `Option` values.  Discord objects (guilds, channels,
users, members) are modelled as plain records carrying their numeric id;
the discord lookups `bot.get_guild`, `bot.get_channel`, `bot.get_user` and
`guild.get_member` are modelled as lookups in the lists carried by the
`Bot` record.  FastAPI JSON / plain-text responses are modelled by the
`Resp` inductive; a `fastapi.responses.JSONResponse` built without a
status-code argument has HTTP status 200, its default.

Python string operations are modelled by kernel-computable functions over
the character list of a `String` (the corresponding library functions use
iterators or well-founded recursion and do not reduce inside the kernel);
each model notes the Python operation it embeds.  All string data in this
program is ASCII, so the ASCII behaviour of the character operations
matches the Python semantics on the relevant inputs.
-/

/-- Python `str.upper()` (ASCII): upper-case every character. -/
def pyUpper (s : String) : String := String.mk (s.data.map Char.toUpper)

/-- Python `str.isdigit()` (ASCII): nonempty and all characters digits. -/
def pyIsDigit (s : String) : Bool := !s.data.isEmpty && s.data.all Char.isDigit

/-- Helper for `pyInt`: read a nonempty digit sequence into a `Nat`. -/
def digitsToNatAux : List Char → Nat → Option Nat
  | [], acc => some acc
  | c :: cs, acc =>
      if c.isDigit then digitsToNatAux cs (acc * 10 + (c.toNat - 48)) else none

/-- Python `int(s)` on decimal strings: `some` of the parsed integer, or
`none` when the call would raise `ValueError`.  An optional leading minus
sign followed by at least one digit is accepted. -/
def pyInt (s : String) : Option Int :=
  match s.data with
  | [] => none
  | '-' :: rest =>
      if rest.isEmpty then none
      else (digitsToNatAux rest 0).map (fun n => -(n : Int))
  | l => (digitsToNatAux l 0).map (fun n => (n : Int))

/-- Python `str(s) and s.isdigit()` used as the numeric-header guard in
`sblp_request` (revised.py line 425): true when the string is a nonempty
all-digit string. -/
def numericMaxwait (t : String) : Bool := pyIsDigit t

/-- The numeric value of an all-digit string, used for the timeout
`float(t)` once `t.isdigit()` held (the values involved are integers). -/
def digitStringVal (t : String) : Nat := (digitsToNatAux t.data 0).getD 0

/-- A JSON scalar appearing in a response body. -/
inductive JVal
  | s (v : String)
  | i (v : Int)
  | b (v : Bool)
deriving DecidableEq, Repr

/-- A response returned by the web layer: either a JSON response with an
HTTP status and a body (an ordered list of key/value pairs), or a
plain-text response. -/
inductive Resp
  | json (status : Nat) (body : List (String × JVal))
  | plain (status : Nat) (body : String)
deriving DecidableEq, Repr

/-- HTTP status of a response. -/
def Resp.status : Resp → Nat
  | .json st _ => st
  | .plain st _ => st

/-- ErrorCode (revised.py lines 69-81): five Boolean flags, each set by
comparing the upper-cased input string to one fixed name. -/
structure ErrorCode where
  MISSING_SETUP : Bool
  COOLDOWN : Bool
  AUTOBUMP : Bool
  NOT_FOUND : Bool
  OTHER : Bool
deriving DecidableEq, Repr

/-- Embedding of `ErrorCode.__init__`: `code = code.upper()` followed by the five
equality tests, in source order. -/
def ErrorCode.ofCode (code : String) : ErrorCode :=
  let c := pyUpper code
  ⟨c == "MISSING_SETUP", c == "COOLDOWN", c == "AUTOBUMP",
   c == "NOT_FOUND", c == "OTHER"⟩

/-- Number of flags of an `ErrorCode` instance that are set. -/
def flagCount (e : ErrorCode) : Nat :=
  (cond e.MISSING_SETUP 1 0) + (cond e.COOLDOWN 1 0) + (cond e.AUTOBUMP 1 0)
    + (cond e.NOT_FOUND 1 0) + (cond e.OTHER 1 0)

/-- C9 counterexample: the string "banana" produces an instance with zero
flags set, so it is not the case that exactly one of the five flags is true
for every constructor input. -/
theorem c9_claim_counterexample : flagCount (ErrorCode.ofCode "banana") ≠ 1 := by
  decide

/-- C9 (amended): for every constructor input, at most one of the five
flags is set, and exactly one is set precisely when the upper-cased input
is one of the five classification names. -/
theorem c9_flag_classification (code : String) :
    flagCount (ErrorCode.ofCode code) ≤ 1 ∧
      (flagCount (ErrorCode.ofCode code) = 1 ↔
        pyUpper code ∈
          (["MISSING_SETUP", "COOLDOWN", "AUTOBUMP", "NOT_FOUND", "OTHER"] :
            List String)) := by
  by_cases h1 : pyUpper code = "MISSING_SETUP" <;>
    by_cases h2 : pyUpper code = "COOLDOWN" <;>
      by_cases h3 : pyUpper code = "AUTOBUMP" <;>
        by_cases h4 : pyUpper code = "NOT_FOUND" <;>
          by_cases h5 : pyUpper code = "OTHER" <;>
            simp_all [ErrorCode.ofCode, flagCount, cond_eq_if, beq_iff_eq]

/-- A discord guild as seen by this program: its id and the ids of the
members its `get_member` lookup can produce. -/
structure Guild where
  id : Int
  members : List Int
deriving DecidableEq, Repr

/-- A discord text channel: its id. -/
structure Channel where
  id : Int
deriving DecidableEq, Repr

/-- A discord user: its id. -/
structure User where
  id : Int
deriving DecidableEq, Repr

/-- A discord member: its id. -/
structure Member where
  id : Int
deriving DecidableEq, Repr

/-- The chat-platform client.  `intentsMembers` is `bot.intents.members`;
the lists model the caches behind `get_guild`, `get_channel`, `get_user`. -/
structure DiscordBot where
  intentsMembers : Bool
  guilds : List Guild
  channels : List Channel
  users : List User
deriving DecidableEq, Repr

/-- Model of `bot.get_guild(n)`: the cached guild with that id, or `None`. -/
def DiscordBot.getGuild (b : DiscordBot) (n : Int) : Option Guild :=
  b.guilds.find? (fun g => g.id == n)

/-- Model of `bot.get_channel(n)`: the cached channel with that id, or `None`. -/
def DiscordBot.getChannel (b : DiscordBot) (n : Int) : Option Channel :=
  b.channels.find? (fun c => c.id == n)

/-- Model of `guild.get_member(n)`: the member with that id, or `None`. -/
def Guild.getMember (g : Guild) (n : Int) : Option Member :=
  if g.members.contains n then some (Member.mk n) else none

/-- A Python value stored in a `MappedBumpRequest` slot: a raw integer id,
a resolved discord object, or a bound method object (`bot.get_user`
accessed without being called, revised.py line 114). -/
inductive PyVal
  | raw (n : Int)
  | guildObj (g : Guild)
  | chanObj (c : Channel)
  | userObj (u : User)
  | method
deriving DecidableEq, Repr

/-- Python truthiness of a `PyVal`: integers are truthy iff nonzero;
discord objects and bound methods are always truthy. -/
def truthy : PyVal → Bool
  | .raw n => n != 0
  | _ => true

/-- True exactly on values that are resolved discord domain objects. -/
def isDomainObj : PyVal → Bool
  | .guildObj _ => true
  | .chanObj _ => true
  | .userObj _ => true
  | _ => false

/-- The `self.on_cooldown` dictionary: channel value to remaining
seconds, as an insertion-ordered association list. -/
abbrev Table := List (PyVal × Nat)

/-- Python `d.get(c)` / `c in d`: value at a key, if present. -/
def tblGet : Table → PyVal → Option Nat
  | [], _ => none
  | kv :: rest, c => if kv.1 == c then some kv.2 else tblGet rest c

/-- Python `d[c] = v`: replace the value at an existing key, or append a
new pair. -/
def tblSet : Table → PyVal → Nat → Table
  | [], c, v => [(c, v)]
  | kv :: rest, c, v =>
      if kv.1 == c then (c, v) :: rest else kv :: tblSet rest c v

/-- Python `del d[c]` wrapped in `try/except KeyError: pass`
(revised.py lines 204-207): remove the key if present, else no-op. -/
def tblErase : Table → PyVal → Table
  | [], _ => []
  | kv :: rest, c => if kv.1 == c then rest else kv :: tblErase rest c

/-- One elapsed second of the `Client._handle_cooldown` loop (revised.py
lines 201-207): if the loop check `self.on_cooldown.get(channel, 0)`
found a nonzero entry, the sleep elapses, the entry is decremented, and
the loop condition is re-checked; on reaching zero the (idempotent)
delete runs with no further delay.  If the countdown already finished,
nothing runs this tick. -/
def cooldownTick (c : PyVal) (t : Table) : Table :=
  if (tblGet t c).getD 0 ≠ 0 then
    let t1 := tblSet t c ((tblGet t c).getD 0 - 1)
    if (tblGet t1 c).getD 0 = 0 then tblErase t1 c else t1
  else t

/-- The `self.on_cooldown` table as observed `k` elapsed seconds after
`Client._handle_cooldown(c)` began on table `t0` with `self.cooldown = n`
(revised.py lines 199-207).  At time zero the entry `c -> n` has been
inserted (line 200) and, when `n = 0`, the loop has already exited and the
delete has run, all without any sleep. -/
def cooldownAt (n : Nat) (c : PyVal) (t0 : Table) : Nat → Table
  | 0 =>
      let t1 := tblSet t0 c n
      if n = 0 then tblErase t1 c else t1
  | k + 1 => cooldownTick c (cooldownAt n c t0 k)

/-- Dictionary assignment stores the assigned value at the key. -/
theorem tblGet_tblSet (t : Table) (c : PyVal) (v : Nat) :
    tblGet (tblSet t c v) c = some v := by
  induction t with
  | nil => simp [tblSet, tblGet]
  | cons kv rest ih =>
      by_cases h : kv.1 == c
      · simp [tblSet, tblGet, h]
      · simp [tblSet, tblGet, h, ih]

/-- Two assignments at the same key collapse to the second one. -/
theorem tblSet_tblSet (t : Table) (c : PyVal) (v w : Nat) :
    tblSet (tblSet t c v) c w = tblSet t c w := by
  induction t with
  | nil => simp [tblSet]
  | cons kv rest ih =>
      by_cases h : kv.1 == c
      · simp [tblSet, h]
      · simp [tblSet, h, ih]

/-- Deleting a key that is absent leaves the dictionary unchanged. -/
theorem tblErase_absent (t : Table) (c : PyVal) (h : tblGet t c = none) :
    tblErase t c = t := by
  induction t with
  | nil => simp [tblErase]
  | cons kv rest ih =>
      by_cases hk : kv.1 == c
      · simp [tblGet, hk] at h
      · simp [tblGet, hk] at h
        simp [tblErase, hk, ih h]

/-- Deleting a key just assigned into a dictionary that did not contain it
restores the original dictionary. -/
theorem tblErase_tblSet (t : Table) (c : PyVal) (v : Nat)
    (h : tblGet t c = none) : tblErase (tblSet t c v) c = t := by
  induction t with
  | nil => simp [tblSet, tblErase]
  | cons kv rest ih =>
      by_cases hk : kv.1 == c
      · simp [tblGet, hk] at h
      · simp [tblGet, hk] at h
        simp [tblSet, tblErase, hk, ih h]

/-- Closed form of the countdown: starting on a table in which the channel
is not yet cooling down, after `k` elapsed seconds the table carries the
entry `c -> n - k` while `k < n` and is back to the original table from
`k = n` on. -/
theorem cooldownAt_closed (n : Nat) (c : PyVal) (t0 : Table)
    (h0 : tblGet t0 c = none) (k : Nat) :
    cooldownAt n c t0 k = if k < n then tblSet t0 c (n - k) else t0 := by
  induction k with
  | zero =>
      by_cases hn : n = 0
      · subst hn
        simp [cooldownAt, tblErase_tblSet t0 c 0 h0]
      · simp [cooldownAt, hn, Nat.pos_of_ne_zero hn]
  | succ k ih =>
      rw [cooldownAt, ih]
      rcases Nat.lt_trichotomy (k + 1) n with h | h | h
      · have hk : k < n := by omega
        have hnz : n - k ≠ 0 := by omega
        have hnz2 : n - k - 1 ≠ 0 := by omega
        rw [if_pos hk, if_pos h]
        simp only [cooldownTick, tblGet_tblSet, Option.getD_some, hnz,
          ne_eq, not_false_iff, if_true, tblSet_tblSet, hnz2, if_false]
        have : n - k - 1 = n - (k + 1) := by omega
        rw [this]
      · have hk : k < n := by omega
        have h1 : n - k = 1 := by omega
        rw [if_pos hk, if_neg (by omega : ¬ k + 1 < n), h1]
        simp only [cooldownTick, tblGet_tblSet, Option.getD_some, ne_eq,
          one_ne_zero, not_false_iff, if_true, tblSet_tblSet]
        simp [tblErase_tblSet t0 c 0 h0]
      · rw [if_neg (by omega : ¬ k < n), if_neg (by omega : ¬ k + 1 < n)]
        simp [cooldownTick, h0]

/-- C5: a countdown started with `n` seconds for channel `c`, on a table
not already containing `c`, first stores `c -> n`, holds value `n - k`
after `k` ticks for every `k < n`, and has removed the entry from tick `n`
on and never before; deleting an absent entry is a no-op (the idempotent
removal of lines 204-207). -/
theorem c5_cooldown_countdown (c : PyVal) (n : Nat) (t0 : Table)
    (h0 : tblGet t0 c = none) :
    (∀ k, cooldownAt n c t0 k = if k < n then tblSet t0 c (n - k) else t0)
      ∧ (∀ k, tblGet (cooldownAt n c t0 k) c =
          if k < n then some (n - k) else none)
      ∧ (∀ t, tblGet t c = none → tblErase t c = t) := by
  refine ⟨fun k => cooldownAt_closed n c t0 h0 k, fun k => ?_,
    fun t ht => tblErase_absent t c ht⟩
  rw [cooldownAt_closed n c t0 h0 k]
  by_cases h : k < n
  · simp [h, tblGet_tblSet]
  · simp [h, h0]

/-- C5 witness: with a countdown of 3 seconds for channel value `raw 2` on
the empty table, the entry reads 2 after one tick, 1 after two ticks, and
is gone after three ticks. -/
theorem c5_cooldown_countdown_witness :
    tblGet (cooldownAt 3 (PyVal.raw 2) [] 1) (PyVal.raw 2) = some 2 ∧
      tblGet (cooldownAt 3 (PyVal.raw 2) [] 2) (PyVal.raw 2) = some 1 ∧
      tblGet (cooldownAt 3 (PyVal.raw 2) [] 3) (PyVal.raw 2) = none := by
  have h := c5_cooldown_countdown (PyVal.raw 2) 3 [] rfl
  refine ⟨?_, ?_, ?_⟩
  · have := h.2.1 1
    simpa using this
  · have := h.2.1 2
    simpa using this
  · have := h.2.1 3
    simpa using this

/-- The wire input (pydantic model `BumpRequest`, revised.py lines 62-66):
three numeric-string identifiers; `type` defaults to "REQUEST". -/
structure BumpRequest where
  type : String := "REQUEST"
  guild : String
  channel : String
  user : String
deriving DecidableEq, Repr

/-- The environment constants read by `MappedBumpRequest.__init__`:
`discord.version_info.minor >= 5` and the module variable
`_VARS["ignore_intents"]`. -/
structure IntentEnv where
  discordMinorGe5 : Bool
  ignoreIntents : Bool
deriving DecidableEq, Repr

/-- A Python exception escaping embedded code. -/
inductive PyErr
  | valueError
  | attributeError
deriving DecidableEq, Repr

/-- The `MappedBumpRequest` record (revised.py lines 84-150).  `intentblocked` is
`none` when the `_intentblocked` slot was never assigned (the branch of
lines 98-103 in which the members intent is present assigns nothing, and
the class uses `__slots__`). -/
structure MappedBumpRequest where
  type : String
  guild : PyVal
  channel : PyVal
  user : PyVal
  member : Option Member
  intentblocked : Option Bool
deriving DecidableEq, Repr

/-- Python `x or y` on slot values: `x` if truthy, else `y`; an absent
lookup result (`None`) is falsy. -/
def pyOr (a : Option PyVal) (b : PyVal) : PyVal :=
  match a with
  | some v => if truthy v then v else b
  | none => b

/-- Embedding of `MappedBumpRequest.__init__` (revised.py lines 96-118).

Line by line: the intents check of lines 98-105 runs first and reads
`bot.intents`, raising `AttributeError` when `bot` is `None`; the three
identifier strings are parsed with `int(...)`, raising `ValueError` on a
non-numeric string (modelled by `pyInt`); with a bot, lines 112-114
upgrade the fields with `or`-fallbacks.  Line 114 is
`self.user = bot.get_user or self.channel`: the method `bot.get_user` is
accessed but never called, so the assigned value is the bound method
object (modelled by `PyVal.method`), and the fallback operand is the
channel, not the user.  Lines 115-118 resolve `member` through
`guild.get_member(int(raw.user))` only when the guild became a real
`discord.Guild`. -/
def mkMapped (raw : BumpRequest) (bot : Option DiscordBot) (env : IntentEnv) :
    Except PyErr MappedBumpRequest :=
  let ib? : Except PyErr (Option Bool) :=
    if env.discordMinorGe5 && !env.ignoreIntents then
      match bot with
      | none => .error .attributeError
      | some b => if !b.intentsMembers then .ok (some true) else .ok none
    else .ok (some false)
  match ib? with
  | .error e => .error e
  | .ok ib =>
      match pyInt raw.guild, pyInt raw.channel, pyInt raw.user with
      | some g, some c, some u =>
          match bot with
          | some b =>
              let guild1 := pyOr ((b.getGuild g).map PyVal.guildObj) (PyVal.raw g)
              let chan1 := pyOr ((b.getChannel c).map PyVal.chanObj) (PyVal.raw c)
              let user1 := pyOr (some PyVal.method) chan1
              let mem :=
                match guild1 with
                | PyVal.guildObj gO => gO.getMember u
                | _ => none
              .ok ⟨"REQUEST", guild1, chan1, user1, mem, ib⟩
          | none =>
              .ok ⟨"REQUEST", PyVal.raw g, PyVal.raw c, PyVal.raw u, none, ib⟩
      | _, _, _ => .error .valueError

/-- The `valid` property (revised.py lines 120-132), as the truthiness of
the Python return value.  The result is `none` when reading the never
assigned `_intentblocked` slot would raise (the slot miss falls into
`__getattr__`, whose final `getattr` has no default). -/
def MappedBumpRequest.valid (m : MappedBumpRequest) : Option Bool :=
  match m.intentblocked with
  | none => none
  | some true => some (truthy m.channel && truthy m.user && truthy m.guild)
  | some false =>
      some (truthy m.channel && truthy m.user && truthy m.guild
        && m.member.isSome)

/-- The environment of the deployments this code targets: discord.py 1.5+
(the version the intents check of line 98 was written for) with
`ignore_intents` at its default `False`. -/
def envDefault : IntentEnv := ⟨true, false⟩

/-- A bot whose caches resolve nothing and that lacks the members
intent. -/
def botEmpty : DiscordBot := ⟨false, [], [], []⟩

/-- A bot that can resolve guild 1 (containing member 3), channel 2 and
user 3, still without the members intent. -/
def botFull : DiscordBot := ⟨false, [⟨1, [3]⟩], [⟨2⟩], [⟨3⟩]⟩

/-- The request body of the end-to-end scenario. -/
def reqBody : BumpRequest := ⟨"REQUEST", "1", "2", "3"⟩

/-- C2 counterexample: for the request `{guild:"1", channel:"2",
user:"3"}` resolved against a bot that resolves nothing and lacks the
members intent, `valid` is true although neither `guild` nor `user`
resolved to a domain object, refuting the claimed equivalence between
`valid` and resolution. -/
theorem c2_claim_counterexample :
    (mkMapped reqBody (some botEmpty) envDefault).map
        (fun m => (m.valid, isDomainObj m.guild, isDomainObj m.user)) =
      .ok (some true, false, false) := by
  rfl

/-- C2 (amended): whenever the `_intentblocked` slot was assigned, `valid`
is the truthiness of channel, user and guild (a resolved object, a
nonzero integer fallback, or the bound-method value stored in `user` are
all truthy) together with (intent blocked OR member resolved); resolution
to domain objects is not required. -/
theorem c2_valid_truthiness (m : MappedBumpRequest) (b : Bool)
    (h : m.intentblocked = some b) :
    m.valid = some (truthy m.channel && truthy m.user && truthy m.guild
      && (b || m.member.isSome)) := by
  cases b <;> simp [MappedBumpRequest.valid, h]

/-- C2 witness: a concrete instance with the intent-blocked flag set and
all three slots truthy has `valid = some true`. -/
theorem c2_valid_truthiness_witness :
    (MappedBumpRequest.mk "REQUEST" (PyVal.raw 1) (PyVal.raw 2)
        PyVal.method none (some true)).valid = some true := by
  have h := c2_valid_truthiness
    (MappedBumpRequest.mk "REQUEST" (PyVal.raw 1) (PyVal.raw 2)
      PyVal.method none (some true)) true rfl
  simpa using h

/-- C3: evaluation of the constructor at the failing input.  Whether or
not the provider could resolve user 3 (`botEmpty` cannot, `botFull` can),
the `user` slot ends up holding the bound method object `bot.get_user` -
never the raw integer 3 and never a resolved user object - because line
114 reads the method without calling it; guild and channel meanwhile do
fall back to their raw integers, and construction does not raise. -/
theorem c3_user_field_eval :
    ((mkMapped reqBody (some botEmpty) envDefault).map (fun m => m.user) =
        .ok PyVal.method)
      ∧ ((mkMapped reqBody (some botFull) envDefault).map (fun m => m.user) =
        .ok PyVal.method)
      ∧ PyVal.method ≠ PyVal.raw 3
      ∧ (∀ u : User, PyVal.method ≠ PyVal.userObj u)
      ∧ ((mkMapped reqBody (some botEmpty) envDefault).map
          (fun m => (m.guild, m.channel)) = .ok (PyVal.raw 1, PyVal.raw 2)) := by
  refine ⟨by rfl, by rfl, by decide, fun u => by simp, by rfl⟩

/-- Python `token.startswith("Bearer ")` followed by `token[7:]`
(revised.py lines 313-314): strip one optional "Bearer " prefix. -/
def stripBearer (t : String) : String :=
  if "Bearer ".data.isPrefixOf t.data then String.mk (t.data.drop 7) else t

/-- The linear scan of lines 315-317: `for key, value in self.auth.items():
if value == token: break` with a rejecting `else`.  Token equality is
Python string equality: exact and case-sensitive. -/
def tokenMatches (auth : List (String × String)) (t : String) : Bool :=
  auth.any (fun kv => kv.2 == t)

/-- Python `not self.auth`: the auth store is falsy when it is `None` or the
empty dictionary. -/
def authFalsy : Option (List (String × String)) → Bool
  | none => true
  | some l => l.isEmpty

/-- The 503 body of lines 279-286. -/
def notReadyResp : Resp :=
  .json 503 [("status", JVal.i 503),
    ("message", JVal.s "Bot is not ready yet. Try again in a few seconds."),
    ("success", JVal.b false)]

/-- The 501 body of lines 293-300. -/
def authUnloadedResp : Resp :=
  .json 501 [("status", JVal.i 501),
    ("message", JVal.s "Authentication is enabled but has not been loaded. unable to proceed with request."),
    ("success", JVal.b false)]

/-- The 401 body of lines 303-310 (no credential supplied). -/
def missingHeaderResp : Resp :=
  .json 401 [("status", JVal.i 401),
    ("message", JVal.s "Please provide an authentication header"),
    ("success", JVal.b false)]

/-- The 401 body of lines 320-327 (credential matching no stored token). -/
def invalidTokenResp : Resp :=
  .json 401 [("status", JVal.i 401),
    ("message", JVal.s "Please provide a valid authentication header"),
    ("success", JVal.b false)]

/-- The cooldown rejection of lines 330-338.  This is the one
`JSONResponse` in `Client.request` built without a status-code argument,
so its HTTP status is the fastapi default 200 even though the body says
429. -/
def cooldownResp (remaining : Nat) : Resp :=
  .json 200 [("status", JVal.i 429), ("message", JVal.s "On cooldown!"),
    ("success", JVal.b false), ("code", JVal.s "COOLDOWN"),
    ("nextBump", JVal.i remaining)]

/-- The 500 body of lines 347-354. -/
def handlerErrorResp (msg : String) : Resp :=
  .json 500 [("type", JVal.s "ERROR"), ("code", JVal.s "OTHER"),
    ("message", JVal.s ("Internal Error: " ++ msg))]

/-- The 200 success body of lines 361-369. -/
def finishedResp (amount : Int) (cool : Nat) : Resp :=
  .json 200 [("type", JVal.s "FINISHED"), ("response", JVal.s "0"),
    ("amount", JVal.i amount), ("nextBump", JVal.i cool)]

/-- Outcome of the authentication phase: continue, or return a rejection
response. -/
inductive AuthResult
  | proceed
  | reject (r : Resp)
deriving DecidableEq, Repr

/-- The authentication phase of `Client.request` (revised.py lines
287-327): skipped when authentication is not required; 501 when the store
is unset or empty; 401 when the `Authorization` header is absent or the
empty string (both falsy); otherwise the optional "Bearer " prefix is
stripped and the store values are scanned for an exact match, with 401 on
no match. -/
def authPhase (requireAuth : Bool) (auth : Option (List (String × String)))
    (hdr : Option String) : AuthResult :=
  if requireAuth then
    if authFalsy auth then .reject authUnloadedResp
    else if hdr.getD "" = "" then .reject missingHeaderResp
    else if tokenMatches (auth.getD []) (stripBearer (hdr.getD "")) then
      .proceed
    else .reject invalidTokenResp
  else .proceed

/-- Value returned by the user bump handler, as far as `isinstance(res,
int)` distinguishes it. -/
inductive RVal
  | int (n : Int)
  | other
deriving DecidableEq, Repr

/-- Outcome of awaiting the user bump handler. -/
inductive HOutcome
  | returns (v : RVal)
  | raises (msg : String)
deriving DecidableEq, Repr

/-- The `bumped_to` computation (revised.py lines 356-359): an integer result is passed
through, anything else becomes -1. -/
def amountOf : RVal → Int
  | .int n => n
  | .other => -1

/-- The observable outcome of one `Client.request` call: the response,
whether the bump handler was invoked, and whether a cooldown countdown
task was started for the channel. -/
structure ReqResult where
  resp : Resp
  handlerInvoked : Bool
  cooldownStarted : Bool
deriving DecidableEq, Repr

/-- The `Client` state read by `Client.request`: `self.require_auth`,
`self.auth`, `self.cooldown` and `self.on_cooldown`. -/
structure ClientCfg where
  requireAuth : Bool
  auth : Option (List (String × String))
  cooldown : Nat
  onCooldown : Table
deriving DecidableEq, Repr

/-- Embedding of `Client.request` (revised.py lines 276-369), with the bot-readiness
flag, the resolver environment and the handler outcome supplied as
parameters.  In source order: the 503 not-ready check, the
authentication phase, construction of the `MappedBumpRequest` (whose
exceptions propagate), the cooldown-table check returning the cooldown
rejection without invoking the handler, the fire-and-forget start of the
countdown task, and the dispatch of the handler whose exception or return
value becomes the 500 or 200 response. -/
def Client.request (cfg : ClientCfg) (botReady : Bool) (bot : DiscordBot)
    (env : IntentEnv) (handler : HOutcome) (authHeader : Option String)
    (raw : BumpRequest) : Except PyErr ReqResult :=
  if !botReady then .ok ⟨notReadyResp, false, false⟩
  else
    match authPhase cfg.requireAuth cfg.auth authHeader with
    | .reject r => .ok ⟨r, false, false⟩
    | .proceed =>
        match mkMapped raw (some bot) env with
        | .error e => .error e
        | .ok body =>
            match tblGet cfg.onCooldown body.channel with
            | some remaining => .ok ⟨cooldownResp remaining, false, false⟩
            | none =>
                match handler with
                | .raises msg => .ok ⟨handlerErrorResp msg, true, true⟩
                | .returns v =>
                    .ok ⟨finishedResp (amountOf v) cfg.cooldown, true, true⟩

/-- C4: with authentication required, a nonempty store and a nonempty
supplied credential, the request proceeds exactly when the credential
with one optional "Bearer " prefix stripped equals (exact, case-sensitive
string equality) some stored token value, and otherwise it is rejected
with the 401 invalid-token response; a credential without the prefix is
left unchanged by the strip; both the prefixed and the bare form of a
stored secret are accepted while a wrong-case or trailing-whitespace
near-miss is rejected with 401. -/
theorem c4_authenticator (A : List (String × String)) (t : String)
    (hA : A ≠ []) (ht : t ≠ "") :
    (authPhase true (some A) (some t) = .proceed ↔
        stripBearer t ∈ A.map Prod.snd)
      ∧ (authPhase true (some A) (some t) = .reject invalidTokenResp ↔
        stripBearer t ∉ A.map Prod.snd)
      ∧ (∀ s : String, ¬ "Bearer ".data.isPrefixOf s.data →
          stripBearer s = s)
      ∧ authPhase true (some [("peer", "secret")]) (some "Bearer secret") =
          .proceed
      ∧ authPhase true (some [("peer", "secret")]) (some "secret") = .proceed
      ∧ authPhase true (some [("peer", "secret")]) (some "SECRET") =
          .reject invalidTokenResp
      ∧ authPhase true (some [("peer", "secret")]) (some "secret ") =
          .reject invalidTokenResp := by
  have hA' : authFalsy (some A) = false := by
    cases A with
    | nil => exact absurd rfl hA
    | cons a as => rfl
  have key : tokenMatches A (stripBearer t) = true ↔
      stripBearer t ∈ A.map Prod.snd := by
    simp [tokenMatches, List.any_eq_true, List.mem_map, beq_iff_eq]
  have main : authPhase true (some A) (some t) =
      (if stripBearer t ∈ A.map Prod.snd then .proceed
        else .reject invalidTokenResp) := by
    by_cases hm : stripBearer t ∈ A.map Prod.snd
    · simp [authPhase, hA', ht, key.mpr hm, hm]
    · have hf : tokenMatches A (stripBearer t) = false := by
        rcases Bool.eq_false_or_eq_true (tokenMatches A (stripBearer t)) with
          h | h
        · exact absurd (key.mp h) hm
        · exact h
      simp [authPhase, hA', ht, hf, hm]
  refine ⟨?_, ?_, ?_, by decide, by decide, by decide, by decide⟩
  · rw [main]
    by_cases hm : stripBearer t ∈ A.map Prod.snd <;> simp [hm]
  · rw [main]
    by_cases hm : stripBearer t ∈ A.map Prod.snd <;> simp [hm]
  · intro s hs
    simp [stripBearer, hs]

/-- C4 witness: the prefixed form of the stored secret is accepted. -/
theorem c4_authenticator_witness :
    authPhase true (some [("peer", "secret")]) (some "Bearer secret") =
      .proceed := by
  exact (c4_authenticator [("peer", "secret")] "Bearer secret"
    (by decide) (by decide)).2.2.2.1

/-- C7: every accepted request (bot ready, authentication passed, channel
not cooling down) whose handler returns yields status 200 with type
"FINISHED" and response "0", the amount is the integer the handler
returned and -1 for any other return value, and nextBump is the
configured flat cooldown. -/
theorem c7_success_response (cfg : ClientCfg) (bot : DiscordBot)
    (env : IntentEnv) (v : RVal) (hdr : Option String) (raw : BumpRequest)
    (body : MappedBumpRequest)
    (hAuth : authPhase cfg.requireAuth cfg.auth hdr = .proceed)
    (hMap : mkMapped raw (some bot) env = .ok body)
    (hCd : tblGet cfg.onCooldown body.channel = none) :
    Client.request cfg true bot env (.returns v) hdr raw =
        .ok ⟨Resp.json 200 [("type", JVal.s "FINISHED"),
          ("response", JVal.s "0"), ("amount", JVal.i (amountOf v)),
          ("nextBump", JVal.i cfg.cooldown)], true, true⟩
      ∧ (∀ n, amountOf (RVal.int n) = n) ∧ amountOf RVal.other = -1 := by
  refine ⟨?_, fun n => rfl, rfl⟩
  simp [Client.request, hAuth, hMap, hCd, finishedResp]

/-- C7 witness: the end-to-end scenario - request `{guild:"1",
channel:"2", user:"3"}` with valid auth, an empty cooldown table and a
handler returning the integer 7 - yields the 200 FINISHED response with
amount 7 and nextBump the configured 3600. -/
theorem c7_success_response_witness :
    Client.request ⟨true, some [("peer", "secret")], 3600, []⟩ true botFull
        envDefault (HOutcome.returns (RVal.int 7)) (some "Bearer secret")
        reqBody =
      .ok ⟨Resp.json 200 [("type", JVal.s "FINISHED"),
        ("response", JVal.s "0"), ("amount", JVal.i 7),
        ("nextBump", JVal.i 3600)], true, true⟩ := by
  have h := c7_success_response ⟨true, some [("peer", "secret")], 3600, []⟩
    botFull envDefault (RVal.int 7) (some "Bearer secret") reqBody
    ⟨"REQUEST", PyVal.guildObj ⟨1, [3]⟩, PyVal.chanObj ⟨2⟩, PyVal.method,
      some ⟨3⟩, some true⟩ (by decide) (by rfl) (by decide)
  simpa [amountOf] using h.1

/-- C1: evaluation at the failing input.  A request whose channel value
`raw 2` is already in the cooldown table with 120 seconds remaining gets
the rejection body `status=429, code="COOLDOWN", nextBump=120` and the
handler is not invoked, but the HTTP status of the response is 200 - the
`JSONResponse` of lines 330-338 is built without a status-code argument -
not the 429 the claim states. -/
theorem c1_cooldown_response_eval :
    Client.request ⟨true, some [("peer", "secret")], 3600,
        [(PyVal.raw 2, 120)]⟩ true botEmpty envDefault
        (HOutcome.returns (RVal.int 7)) (some "Bearer secret") reqBody =
      .ok ⟨Resp.json 200 [("status", JVal.i 429),
        ("message", JVal.s "On cooldown!"), ("success", JVal.b false),
        ("code", JVal.s "COOLDOWN"), ("nextBump", JVal.i 120)],
        false, false⟩
    ∧ (cooldownResp 120).status = 200 := by
  exact ⟨by rfl, by rfl⟩

/-- The inner `client.request` call as `sblp_request` sees it: how many
seconds it takes, and the response it produces if allowed to finish. -/
structure HandlerRun where
  runtime : Nat
  result : Resp
deriving DecidableEq, Repr

/-- What `sblp_request` returns, together with whether the in-flight task
was cancelled. -/
structure DispatchResult where
  resp : Resp
  cancelled : Bool
deriving DecidableEq, Repr

/-- The plain-text 504 body of revised.py lines 431-432. -/
def timeoutMsg (t : String) : String :=
  "Timeout of " ++ t ++ " seconds was exceeded internally, and as such the task has been cancelled."

/-- True on JSON responses (`isinstance(result, JSONResponse)`). -/
def isJsonResp : Resp → Bool
  | .json _ _ => true
  | .plain _ _ => false

/-- The content-negotiation check of lines 436-446: when the supplied
`Accept` header (default "application/json") asks for JSON and the result
is not a JSON response, a 417 body is returned instead. -/
def acceptCheck (accept : Option String) (r : Resp) : DispatchResult :=
  if accept.getD "application/json" = "application/json" && !isJsonResp r then
    ⟨.json 417 [("status", JVal.i 417),
      ("message", JVal.s "Response type could not be converted to application/json"),
      ("success", JVal.b false)], false⟩
  else ⟨r, false⟩

/-- Embedding of `sblp_request` (revised.py lines 417-446), reduced to its timeout and
content-negotiation behaviour around the inner `client.request` call.
Line 425: `t` is the `maxwait` header with default "60"; only when `t`
is truthy and `t.isdigit()` is the call wrapped in
`asyncio.wait_for(task, timeout=float(t))`, with a plain-text 504 and a
cancelled task when the call takes longer; otherwise - in particular for
every non-numeric supplied value - the call is awaited with no timeout at
all. -/
def sblp_request (maxwait accept : Option String) (run : HandlerRun) :
    DispatchResult :=
  let t := maxwait.getD "60"
  if numericMaxwait t then
    if run.runtime > digitStringVal t then ⟨.plain 504 (timeoutMsg t), true⟩
    else acceptCheck accept run.result
  else acceptCheck accept run.result

/-- A representative inner response for the dispatch theorems. -/
def okResult : Resp := .json 200 [("type", JVal.s "FINISHED")]

/-- C6 counterexample: with `maxwait: "oops"` (not numeric) and an inner
call taking 100 seconds, the claim - the default of 60 seconds is used as
the dispatch timeout - demands the 504 timeout response with the task
cancelled, since 100 exceeds 60; the code instead awaits the call without
any timeout and returns its response uncancelled, as the run with the
header absent (which does time out after 60) shows by contrast. -/
theorem c6_claim_counterexample :
    sblp_request (some "oops") (some "application/json") ⟨100, okResult⟩ =
        ⟨okResult, false⟩
      ∧ sblp_request none (some "application/json") ⟨100, okResult⟩ =
        ⟨.plain 504 (timeoutMsg "60"), true⟩
      ∧ (100 : Nat) > 60
      ∧ (⟨okResult, false⟩ : DispatchResult) ≠
        ⟨.plain 504 (timeoutMsg "60"), true⟩ := by
  refine ⟨by decide, by decide, by decide, by decide⟩

/-- C6 (amended): the `maxwait` header is optional with default 60: with
the header absent the inner call runs under a 60-second timeout, and with
a nonempty all-digit value under that value as timeout; a call exceeding
the effective timeout yields the plain-text 504 response and the
in-flight task is cancelled; but a supplied non-numeric value does not
fall back to the default - the inner call is then awaited with no timeout
at all. -/
theorem c6_maxwait_behavior (accept : Option String) (run : HandlerRun)
    (s : String) :
    (sblp_request none accept run =
        if run.runtime > 60 then ⟨.plain 504 (timeoutMsg "60"), true⟩
        else acceptCheck accept run.result)
      ∧ (numericMaxwait s = true → sblp_request (some s) accept run =
          if run.runtime > digitStringVal s then
            ⟨.plain 504 (timeoutMsg s), true⟩
          else acceptCheck accept run.result)
      ∧ (numericMaxwait s = false → sblp_request (some s) accept run =
          acceptCheck accept run.result) := by
  refine ⟨?_, fun h => ?_, fun h => ?_⟩
  · simp [sblp_request, numericMaxwait, pyIsDigit, digitStringVal,
      digitsToNatAux]
  · simp [sblp_request, h]
  · simp [sblp_request, h]

/-- C6 witness: for the non-numeric header "oops" the inner response is
returned unchanged. -/
theorem c6_maxwait_behavior_witness :
    sblp_request (some "oops") (some "application/json") ⟨100, okResult⟩ =
      acceptCheck (some "application/json") okResult := by
  exact (c6_maxwait_behavior (some "application/json") ⟨100, okResult⟩
    "oops").2.2 (by decide)

/-- The auth-related `Client` state mutated by `add_auth` and
`load_config`: `self.auth` (`none` models `None`) and `self.auth_path`. -/
structure AuthState where
  auth : Option (List (String × String))
  authPath : Option String
deriving DecidableEq, Repr

/-- Python dictionary assignment `d[k] = v`: replace the value at an
existing key in place, or append a new pair. -/
def dictSet (d : List (String × String)) (k v : String) :
    List (String × String) :=
  if d.any (fun kv => kv.1 == k) then
    d.map (fun kv => if kv.1 == k then (k, v) else kv)
  else d ++ [(k, v)]

/-- The observable outcome of one `Client.add_auth` call: the new state,
the content `json.dump` wrote to the config file (`none` when no path is
known and nothing was written), and whether the no-path warning was
logged. -/
structure AddAuthResult where
  state : AuthState
  fileWritten : Option (List (String × String))
  warned : Bool
deriving DecidableEq, Repr

/-- Embedding of `Client.add_auth` (revised.py lines 396-414), in source order: a falsy
`self.auth` (None or empty) is replaced by the empty dictionary; with no
`self.auth_path` a warning is logged and nothing is written; otherwise
`json.dump(self.auth, wfile)` writes the CURRENT mapping to the file; and
only after that does `self.auth[url] = token` add the new pair, so a
written file never contains it. -/
def add_auth (s : AuthState) (url token : String) : AddAuthResult :=
  let a := match s.auth with
    | none => []
    | some l => if l.isEmpty then [] else l
  match s.authPath with
  | none => ⟨⟨some (dictSet a url token), none⟩, none, true⟩
  | some p => ⟨⟨some (dictSet a url token), some p⟩, some a, false⟩

/-- C8: evaluation at the failing input.  With `auth = {"a": "b"}` and a
known config path, `add_auth("peer", "tok")` leaves the in-memory mapping
holding the new pair but writes only the OLD mapping `{"a": "b"}` to the
file - the dump of line 410-411 runs before the mutation of line 412 -
so after the call the file does not contain the newly added pair.  With
no path known, the mapping is mutated in memory only and the warning is
logged, as the claim says for that case. -/
theorem c8_add_auth_eval :
    add_auth ⟨some [("a", "b")], some "cfg.json"⟩ "peer" "tok" =
        ⟨⟨some [("a", "b"), ("peer", "tok")], some "cfg.json"⟩,
          some [("a", "b")], false⟩
      ∧ add_auth ⟨none, none⟩ "peer" "tok" =
        ⟨⟨some [("peer", "tok")], none⟩, none, true⟩ := by
  exact ⟨by decide, by decide⟩

/-- Content of a file as `json.load` sees it: a JSON object mapping slugs
to tokens, or data that raises `json.JSONDecodeError`. -/
inductive FileContent
  | validJson (data : List (String × String))
  | invalidJson
deriving DecidableEq, Repr

/-- The typed errors `Client.load_config` can raise: `TypeError` for a
missing path, `FileNotFoundError`, and `errors.JSONLoadError`. -/
inductive LoadError
  | typeError
  | fileNotFound (path : String)
  | jsonLoadError (path : String)
deriving DecidableEq, Repr

/-- Python `path or self.auth_path`: the argument when truthy (present and
nonempty), else the stored path. -/
def pyStrOr (a b : Option String) : Option String :=
  match a with
  | some q => if q ≠ "" then some q else b
  | none => b

/-- The file system visible to `open` + `json.load`: path to content;
a missing path raises `FileNotFoundError`. -/
def lookupFS (fs : List (String × FileContent)) (p : String) :
    Option FileContent :=
  (fs.find? (fun kv => kv.1 == p)).map (fun kv => kv.2)

/-- Embedding of `Client.load_config` (revised.py lines 371-394), returning the client
state after the call together with the result.  In source order: the
resolved path must be truthy or `TypeError` is raised; `open` raises
`FileNotFoundError` before any mutation; `json.load` raises
`JSONDecodeError` (re-raised as `JSONLoadError`) before the
`self.auth_path = path` assignment that follows it inside the `try`; only
when the load succeeded are `self.auth_path` (line 387) and then
`self.auth` (line 393, in the `else` block) updated. -/
def load_config (fs : List (String × FileContent)) (s : AuthState)
    (p : Option String) :
    AuthState × Except LoadError (List (String × String)) :=
  match pyStrOr p s.authPath with
  | none => (s, .error .typeError)
  | some path =>
      if path = "" then (s, .error .typeError)
      else
        match lookupFS fs path with
        | none => (s, .error (.fileNotFound path))
        | some .invalidJson => (s, .error (.jsonLoadError path))
        | some (.validJson d) => (⟨some d, some path⟩, .ok d)

/-- C10: `load_config` is atomic on error.  For every resolved nonempty
path: a missing file yields `FileNotFoundError` and an unchanged state,
invalid JSON yields `JSONLoadError` and an unchanged state, and only a
successful parse updates both the auth mapping and the stored auth
path. -/
theorem c10_load_config_atomic (fs : List (String × FileContent))
    (s : AuthState) (p : Option String) (path : String)
    (hp : pyStrOr p s.authPath = some path) (hne : path ≠ "") :
    (lookupFS fs path = none →
        load_config fs s p = (s, .error (.fileNotFound path)))
      ∧ (lookupFS fs path = some .invalidJson →
        load_config fs s p = (s, .error (.jsonLoadError path)))
      ∧ (∀ d, lookupFS fs path = some (.validJson d) →
        load_config fs s p = (⟨some d, some path⟩, .ok d)) := by
  refine ⟨fun h => ?_, fun h => ?_, fun d h => ?_⟩ <;>
    simp [load_config, hp, hne, h]

/-- C10 witness: loading a path whose file holds invalid JSON raises the
typed JSON error and leaves the client state unchanged. -/
theorem c10_load_config_atomic_witness :
    load_config [("cfg.json", FileContent.invalidJson)] ⟨none, none⟩
        (some "cfg.json") =
      (⟨none, none⟩, .error (.jsonLoadError "cfg.json")) := by
  exact (c10_load_config_atomic [("cfg.json", FileContent.invalidJson)]
    ⟨none, none⟩ (some "cfg.json") "cfg.json" (by decide) (by decide)).2.1
    (by rfl)
